import Mathlib

/-!
Verification development for the VoiceLive retail demo repository.

The repository is a collection of Python front-ends for a hosted realtime
speech service.  This file gives a shallow embedding of the pieces of the
code that the verified properties are about:

* the per-session conversation state and the Chainlit event handlers of
  `model_app.py` / `app.py`;
* the realtime client wrappers `voicelive_client.py` and
  `voicelive_modelclient.py` (event re-dispatch, `send`, the receive loop
  and its function-call handling);
* the static tool table of `tools.py`;
* the WebSocket relay of `voice_live_proxy_aiohttp.py`;
* the static file server of `avatar_server.py`;
* the audio loops and `AudioPlayerAsync` of `streamlit_voice_app.py`.

Conventions of the embedding: Python strings are `String`, byte strings are
`List Nat`, a value that may be absent (`dict.get`) is an `Option`, a
fallible computation (one that can raise) is an `Except String`, and the
random `uuid4` supply is modelled by a counter of already-generated ids, so
that a freshly drawn id is distinct from every id drawn before it.
-/

namespace VoiceLive

/-- An identifier held in per-session state or carried by an event: `pnone`
is Python `None` (a missing `item_id`), `lit s` is a string that came from
an event or a literal in the code (such as the initial `"1"`), and `gen n`
is the `n`-th value produced by the session's `uuid4` supply. -/
inductive PyId where
  | pnone
  | lit (s : String)
  | gen (n : Nat)
deriving DecidableEq, Repr

/-- `event.get("item_id")` as stored or compared by the handlers. -/
def idOfEvent : Option String → PyId
  | none => PyId.pnone
  | some s => PyId.lit s

/-- The per-session key/value storage used by `model_app.init_rtclient`:
`track_id`, the two-element `transcript` pair (last item id, accumulated
text), the two-element `user_input_transcript` pair, and the counter of the
uuid supply. -/
structure MSession where
  track_id : PyId
  transcript : PyId × String
  user_input_transcript : PyId × String
  next_fresh : Nat
deriving DecidableEq, Repr

/-- Draw a fresh uuid from the session's supply (`str(uuid4())`). -/
def freshId (s : MSession) : PyId × MSession :=
  (PyId.gen s.next_fresh, { s with next_fresh := s.next_fresh + 1 })

/-- The session state set up by `model_app.init_rtclient`:
`track_id = str(uuid4())`, `transcript = ["1", "-"]`,
`user_input_transcript = ["1", ""]`. -/
def init_rtclient (n : Nat) : MSession :=
  { track_id := PyId.gen n
    transcript := (PyId.lit "1", "-")
    user_input_transcript := (PyId.lit "1", "")
    next_fresh := n + 1 }

/-- The UI-facing effects a Chainlit handler can perform. -/
inductive UiAction where
  | sendAudioChunk (track : PyId)
  | sendAudioInterrupt
  | updateMessage (author : String) (id : PyId) (content : Option String)
  | sendMessage (author : String) (id : PyId) (content : Option String)
deriving DecidableEq, Repr

/-- The event dictionaries handed to the registered handlers
(`event.get("audio")`, `event.get("item_id")`, `event.get("transcript")`). -/
structure HandlerEvent where
  audio : Option (List Nat)
  item_id : Option String
  transcript : Option String
deriving DecidableEq, Repr

/-- `model_app.handle_conversation_updated`: play a received audio chunk on
the session's current track; no session state changes. -/
def handle_conversation_updated (s : MSession) (e : HandlerEvent) :
    MSession × List UiAction :=
  match e.audio with
  | some a => if a.isEmpty then (s, []) else (s, [UiAction.sendAudioChunk s.track_id])
  | none => (s, [])

/-- `model_app.handle_conversation_interrupt`: regenerate `track_id`, send an
audio interrupt, then create a fresh empty user-message placeholder. -/
def handle_conversation_interrupt (s : MSession) (_e : HandlerEvent) :
    MSession × List UiAction :=
  let (tid, s1) := freshId s
  let s2 := { s1 with track_id := tid }
  let (uid, s3) := freshId s2
  let s4 := { s3 with user_input_transcript := (uid, "") }
  (s4, [UiAction.sendAudioInterrupt, UiAction.sendMessage "user" uid (some "")])

/-- `model_app.handle_conversation_message_interrupted`: regenerate
`track_id` when the user interrupts with a typed chat message. -/
def handle_conversation_message_interrupted (s : MSession) (_e : HandlerEvent) :
    MSession × List UiAction :=
  let (tid, s1) := freshId s
  ({ s1 with track_id := tid }, [])

/-- `model_app.handle_response_audio_transcript_updated`: accumulate the
assistant transcript.  A truthy delta whose `item_id` matches the stored
pair is appended and the existing chat message updated; a truthy delta with
a different `item_id` replaces the pair and sends a new chat message; a
missing or empty (falsy) delta does nothing. -/
def handle_response_audio_transcript_updated (s : MSession) (e : HandlerEvent) :
    MSession × List UiAction :=
  match e.transcript with
  | none => (s, [])
  | some d =>
    if d = "" then (s, [])
    else
      let item_id := idOfEvent e.item_id
      if s.transcript.1 = item_id then
        let t := s.transcript.2 ++ d
        ({ s with transcript := (item_id, t) },
          [UiAction.updateMessage "assistant" item_id (some t)])
      else
        ({ s with transcript := (item_id, d) },
          [UiAction.sendMessage "assistant" item_id (some d)])

/-- `model_app.handle_user_input_transcript_done`: update the stored user
placeholder with the final transcript and reset the placeholder pair to a
fresh uuid and empty text. -/
def handle_user_input_transcript_done (s : MSession) (e : HandlerEvent) :
    MSession × List UiAction :=
  let msg_id := s.user_input_transcript.1
  let (uid, s1) := freshId s
  ({ s1 with user_input_transcript := (uid, "") },
    [UiAction.updateMessage "user" msg_id e.transcript])

/-- The five handlers registered by `model_app.init_rtclient`, keyed by the
callback-event name they are registered under. -/
inductive MHandler where
  | conversationUpdated
  | conversationInterrupt
  | responseAudioTranscriptUpdated
  | userInputTranscriptDone
  | conversationMessageInterrupted
deriving DecidableEq, Repr

/-- Dispatch table of the registered `model_app` handlers. -/
def runHandler : MHandler → MSession → HandlerEvent → MSession × List UiAction
  | MHandler.conversationUpdated => handle_conversation_updated
  | MHandler.conversationInterrupt => handle_conversation_interrupt
  | MHandler.responseAudioTranscriptUpdated => handle_response_audio_transcript_updated
  | MHandler.userInputTranscriptDone => handle_user_input_transcript_done
  | MHandler.conversationMessageInterrupted => handle_conversation_message_interrupted

/-- The stored `track_id` was produced by the session's uuid supply at some
point strictly before the supply's current position.  `init_rtclient`
establishes this and every handler preserves it. -/
def trackGenerated (s : MSession) : Prop :=
  ∃ k, s.track_id = PyId.gen k ∧ k < s.next_fresh

theorem trackGenerated_init (n : Nat) : trackGenerated (init_rtclient n) :=
  ⟨n, rfl, Nat.lt_succ_self n⟩

theorem trackGenerated_runHandler (h : MHandler) (s : MSession) (e : HandlerEvent)
    (hs : trackGenerated s) : trackGenerated (runHandler h s e).1 := by
  obtain ⟨k, hk, hlt⟩ := hs
  cases h <;>
    simp only [runHandler, handle_conversation_updated, handle_conversation_interrupt,
      handle_conversation_message_interrupted, handle_response_audio_transcript_updated,
      handle_user_input_transcript_done, freshId, trackGenerated]
  · cases ha : e.audio with
    | none => exact ⟨k, hk, hlt⟩
    | some a =>
      by_cases hae : a.isEmpty <;> simp [hae] <;> exact ⟨k, hk, hlt⟩
  · exact ⟨s.next_fresh, rfl, by omega⟩
  · cases ht : e.transcript with
    | none => exact ⟨k, hk, hlt⟩
    | some d =>
      by_cases hd : d = "" <;> by_cases hm : s.transcript.1 = idOfEvent e.item_id <;>
        simp [hd, hm] <;> exact ⟨k, hk, hlt⟩
  · exact ⟨k, hk, by omega⟩
  · exact ⟨s.next_fresh, rfl, by omega⟩

theorem conversation_updated_state_eq (s : MSession) (e : HandlerEvent) :
    (handle_conversation_updated s e).1 = s := by
  unfold handle_conversation_updated
  cases e.audio with
  | none => rfl
  | some a => by_cases h : a.isEmpty <;> simp [h]

theorem transcript_updated_track_id (s : MSession) (e : HandlerEvent) :
    (handle_response_audio_transcript_updated s e).1.track_id = s.track_id := by
  unfold handle_response_audio_transcript_updated
  cases e.transcript with
  | none => rfl
  | some d =>
    by_cases hd : d = "" <;> by_cases hm : s.transcript.1 = idOfEvent e.item_id <;>
      simp [hd, hm]

/-- C1 counterexample: a transcript-delta event whose `item_id` differs from
the stored last item id but whose delta is the empty string leaves the
stored pair unchanged and creates no chat message, while the claim requires
the pair to become (new item id, delta) and a new assistant message to be
created: the handler guards on the truthiness of the delta. -/
theorem transcript_delta_empty_counterexample :
    (handle_response_audio_transcript_updated (init_rtclient 0)
        { audio := none, item_id := some "item_A", transcript := some "" }).1.transcript
      ≠ (PyId.lit "item_A", "") ∧
    (handle_response_audio_transcript_updated (init_rtclient 0)
        { audio := none, item_id := some "item_A", transcript := some "" }).2 = [] := by
  constructor
  · decide
  · rfl

/-- C1 (amended): the per-session transcript state is a pair (last item id,
accumulated text), and for every transcript-delta event carrying a
non-empty delta the handler preserves this shape: if the event's `item_id`
equals the stored last item id the stored text becomes the previous text
with the delta appended and the existing assistant chat message is updated
in place; if the `item_id` differs the pair is replaced by (new item id,
delta) and a new assistant chat message is created.  Events with a missing
or empty delta leave the state and the chat untouched.  The handler never
touches `track_id` or the user-input pair. -/
theorem transcript_delta_accumulates (s : MSession) (e : HandlerEvent) (d : String)
    (hd : e.transcript = some d) (hne : d ≠ "") :
    (s.transcript.1 = idOfEvent e.item_id →
      handle_response_audio_transcript_updated s e =
        ({ s with transcript := (idOfEvent e.item_id, s.transcript.2 ++ d) },
          [UiAction.updateMessage "assistant" (idOfEvent e.item_id)
            (some (s.transcript.2 ++ d))])) ∧
    (s.transcript.1 ≠ idOfEvent e.item_id →
      handle_response_audio_transcript_updated s e =
        ({ s with transcript := (idOfEvent e.item_id, d) },
          [UiAction.sendMessage "assistant" (idOfEvent e.item_id) (some d)])) ∧
    (handle_response_audio_transcript_updated s e).1.track_id = s.track_id ∧
    (handle_response_audio_transcript_updated s e).1.user_input_transcript =
      s.user_input_transcript := by
  refine ⟨?_, ?_, ?_, ?_⟩
  · intro hm
    unfold handle_response_audio_transcript_updated
    rw [hd]
    simp [hne, hm]
  · intro hm
    unfold handle_response_audio_transcript_updated
    rw [hd]
    simp [hne, hm]
  · exact transcript_updated_track_id s e
  · unfold handle_response_audio_transcript_updated
    rw [hd]
    by_cases hm : s.transcript.1 = idOfEvent e.item_id <;> simp [hne, hm]

theorem transcript_delta_accumulates_witness :
    ((init_rtclient 0).transcript.1 ≠ idOfEvent (some "item_A")) ∧
    handle_response_audio_transcript_updated (init_rtclient 0)
        { audio := none, item_id := some "item_A", transcript := some "Hello" } =
      ({ init_rtclient 0 with transcript := (PyId.lit "item_A", "Hello") },
        [UiAction.sendMessage "assistant" (PyId.lit "item_A") (some "Hello")]) :=
  ⟨by decide,
    (transcript_delta_accumulates (init_rtclient 0)
      { audio := none, item_id := some "item_A", transcript := some "Hello" }
      "Hello" rfl (by decide)).2.1 (by decide)⟩

/-- C2: handling a conversation-interrupted event (or the typed-message
variant) replaces the stored `track_id` with a freshly drawn uuid, which
differs from the previous one because the previous one was drawn earlier
from the same supply; every other registered handler leaves `track_id`
exactly as it was. -/
theorem track_id_regenerated_on_interrupt (s : MSession) (e : HandlerEvent)
    (h : trackGenerated s) :
    (runHandler MHandler.conversationInterrupt s e).1.track_id ≠ s.track_id ∧
    (runHandler MHandler.conversationMessageInterrupted s e).1.track_id ≠ s.track_id ∧
    ∀ h2 : MHandler, h2 ≠ MHandler.conversationInterrupt →
      h2 ≠ MHandler.conversationMessageInterrupted →
      (runHandler h2 s e).1.track_id = s.track_id := by
  obtain ⟨k, hk, hlt⟩ := h
  refine ⟨?_, ?_, ?_⟩
  · simp only [runHandler, handle_conversation_interrupt, freshId]
    rw [hk]
    intro hEq
    have : s.next_fresh = k := by injection hEq
    omega
  · simp only [runHandler, handle_conversation_message_interrupted, freshId]
    rw [hk]
    intro hEq
    have : s.next_fresh = k := by injection hEq
    omega
  · intro h2 hne1 hne2
    cases h2 with
    | conversationUpdated =>
      show (handle_conversation_updated s e).1.track_id = s.track_id
      rw [conversation_updated_state_eq]
    | conversationInterrupt => exact absurd rfl hne1
    | responseAudioTranscriptUpdated => exact transcript_updated_track_id s e
    | userInputTranscriptDone =>
      simp [runHandler, handle_user_input_transcript_done, freshId]
    | conversationMessageInterrupted => exact absurd rfl hne2

theorem track_id_regenerated_on_interrupt_witness :
    trackGenerated (init_rtclient 0) ∧
    (runHandler MHandler.conversationInterrupt (init_rtclient 0)
        { audio := none, item_id := none, transcript := none }).1.track_id ≠
      (init_rtclient 0).track_id :=
  ⟨⟨0, rfl, Nat.zero_lt_one⟩,
    (track_id_regenerated_on_interrupt (init_rtclient 0)
      { audio := none, item_id := none, transcript := none }
      ⟨0, rfl, Nat.zero_lt_one⟩).1⟩

/-- Base64 value of one alphabet character (`None` for padding and
characters outside the alphabet). -/
def b64val (c : Char) : Option Nat :=
  if 'A' ≤ c ∧ c ≤ 'Z' then some (c.toNat - 65)
  else if 'a' ≤ c ∧ c ≤ 'z' then some (c.toNat - 97 + 26)
  else if '0' ≤ c ∧ c ≤ '9' then some (c.toNat - 48 + 52)
  else if c = '+' then some 62
  else if c = '/' then some 63
  else none

/-- The 6-bit groups encoded by a base64 string. -/
def b64sextets (s : String) : List Nat :=
  s.data.filterMap b64val

/-- Reassemble bytes from 6-bit groups: four groups give three bytes, a
final pair or triple gives one or two bytes. -/
def b64bytes : List Nat → List Nat
  | a :: b :: c :: d :: rest =>
      (a * 4 + b / 16) :: ((b % 16) * 16 + c / 4) :: ((c % 4) * 64 + d) :: b64bytes rest
  | [a, b] => [a * 4 + b / 16]
  | [a, b, c] => [a * 4 + b / 16, (b % 16) * 16 + c / 4]
  | _ => []

/-- Modelled from the spec: `utils.base64_to_array_buffer` (the `utils`
module itself is not part of the sources) decodes a base64 payload into the
raw bytes it encodes, as the spec's "the base64-decoded delta bytes"; the
clients immediately flatten the buffer back to bytes with `.tobytes()`. -/
def base64_to_array_buffer (s : String) : List Nat :=
  b64bytes (b64sextets s)

/-- A server JSON envelope as read by `VoiceLiveClient.receive` after
`json.loads`: each field is the value under that key, or `none` when the
key is absent (indexing an absent key raises `KeyError`). -/
structure ServerEvent where
  type_ : Option String
  delta : Option String
  item_id : Option String
  transcript : Option String
deriving DecidableEq, Repr

/-- The payloads handed to `dispatch` by `VoiceLiveClient.receive`: the
constructed audio dict, the raw server event (for `response.audio.done`),
the interruption marker dict, the transcript-delta dict and the completed
input-transcript dict. -/
inductive Dispatched where
  | audioUpdate (audio : List Nat)
  | rawUpdate (e : ServerEvent)
  | interrupted
  | textDelta (transcript : String) (item_id : String)
  | inputTextDone (transcript : String)
deriving DecidableEq, Repr

/-- What processing one server envelope in `VoiceLiveClient.receive` does:
the `(event name, payload)` dispatches and the event types sent back over
the socket, in order. -/
structure ClientStep where
  dispatches : List (String × Dispatched)
  sends : List String
deriving DecidableEq, Repr

namespace VoiceLiveClient

/-- One iteration of `VoiceLiveClient.receive` on a decoded envelope.  The
loop body has no exception handler, so a missing required key is an
uncaught `KeyError` (`Except.error`). -/
def processEvent (e : ServerEvent) : Except String ClientStep :=
  match e.type_ with
  | none => Except.error "KeyError: type"
  | some t =>
    if t = "response.audio.delta" then
      match e.delta with
      | none => Except.error "KeyError: delta"
      | some d =>
        Except.ok
          { dispatches :=
              [("conversation.updated", Dispatched.audioUpdate (base64_to_array_buffer d))],
            sends := [] }
    else if t = "response.audio.done" then
      Except.ok { dispatches := [("conversation.updated", Dispatched.rawUpdate e)]
                  sends := [] }
    else if t = "input_audio_buffer.committed" then
      Except.ok { dispatches := [], sends := ["response.create"] }
    else if t = "input_audio_buffer.speech_started" then
      Except.ok { dispatches := [("conversation.interrupted", Dispatched.interrupted)]
                  sends := [] }
    else if t = "input_audio_buffer.speech_stopped" then
      Except.ok { dispatches := [], sends := [] }
    else if t = "response.audio_transcript.delta" then
      match e.delta with
      | none => Except.error "KeyError: delta"
      | some d =>
        match e.item_id with
        | none => Except.error "KeyError: item_id"
        | some i =>
          Except.ok { dispatches := [("conversation.text.delta", Dispatched.textDelta d i)]
                      sends := [] }
    else if t = "conversation.item.input_audio_transcription.completed" then
      match e.transcript with
      | none => Except.error "KeyError: transcript"
      | some tr =>
        Except.ok { dispatches := [("conversation.input.text.done", Dispatched.inputTextDone tr)]
                    sends := [] }
    else
      Except.ok { dispatches := [], sends := [] }

end VoiceLiveClient

/-- `VoiceLiveClient.dispatch`: deliver the event to every handler
registered under the event name, in registration order.  Handlers are
opaque values of a type `α`; the result records each delivery. -/
def dispatch {α : Type} (event_handlers : String → List α) (event_name : String)
    (event : Dispatched) : List (α × Dispatched) :=
  (event_handlers event_name).map (fun h => (h, event))

/-- C4: the realtime client wrapper re-dispatches received envelopes as
named callback events: `response.audio.delta` becomes a
`conversation.updated` event whose audio is the base64-decoded delta bytes;
`response.audio_transcript.delta` becomes `conversation.text.delta`
carrying the delta as transcript together with the `item_id`;
`conversation.item.input_audio_transcription.completed` becomes
`conversation.input.text.done` carrying the transcript; and a dispatched
event reaches every handler registered under its name. -/
theorem receive_redispatches_events (e : ServerEvent) :
    (∀ d, e.type_ = some "response.audio.delta" → e.delta = some d →
      VoiceLiveClient.processEvent e =
        Except.ok
          { dispatches :=
              [("conversation.updated", Dispatched.audioUpdate (base64_to_array_buffer d))],
            sends := [] }) ∧
    (∀ d i, e.type_ = some "response.audio_transcript.delta" →
      e.delta = some d → e.item_id = some i →
      VoiceLiveClient.processEvent e =
        Except.ok { dispatches := [("conversation.text.delta", Dispatched.textDelta d i)]
                    sends := [] }) ∧
    (∀ tr, e.type_ = some "conversation.item.input_audio_transcription.completed" →
      e.transcript = some tr →
      VoiceLiveClient.processEvent e =
        Except.ok
          { dispatches := [("conversation.input.text.done", Dispatched.inputTextDone tr)],
            sends := [] }) ∧
    (∀ (α : Type) (event_handlers : String → List α) (name : String)
      (ev : Dispatched) (h : α), h ∈ event_handlers name →
      (h, ev) ∈ dispatch event_handlers name ev) := by
  refine ⟨?_, ?_, ?_, ?_⟩
  · intro d ht hd
    unfold VoiceLiveClient.processEvent
    rw [ht, hd]
    rfl
  · intro d i ht hd hi
    unfold VoiceLiveClient.processEvent
    rw [ht, hd, hi]
    rfl
  · intro tr ht htr
    unfold VoiceLiveClient.processEvent
    rw [ht, htr]
    rfl
  · intro α event_handlers name ev h hmem
    exact List.mem_map.mpr ⟨h, hmem, rfl⟩

theorem receive_redispatches_events_witness :
    VoiceLiveClient.processEvent
        { type_ := some "response.audio.delta", delta := some "AAEC"
          item_id := none, transcript := none } =
      Except.ok { dispatches := [("conversation.updated", Dispatched.audioUpdate [0, 1, 2])]
                  sends := [] } := by
  have h := (receive_redispatches_events
    { type_ := some "response.audio.delta", delta := some "AAEC"
      item_id := none, transcript := none }).1 "AAEC" rfl rfl
  simpa using h

/-- A Python value as it appears in the JSON envelopes: `None`, booleans,
integers, strings, lists and string-keyed dicts. -/
inductive PyVal where
  | pynone
  | pybool (b : Bool)
  | pyint (n : Int)
  | pystr (s : String)
  | pylist (xs : List PyVal)
  | pydict (kvs : List (String × PyVal))

/-- Python truthiness, as used by `data or {}` in `send`. -/
def PyVal.truthy : PyVal → Bool
  | PyVal.pynone => false
  | PyVal.pybool b => b
  | PyVal.pyint n => n != 0
  | PyVal.pystr s => s != ""
  | PyVal.pylist xs => !xs.isEmpty
  | PyVal.pydict kvs => !kvs.isEmpty

/-- `isinstance(v, dict)`. -/
def PyVal.isDict : PyVal → Bool
  | PyVal.pydict _ => true
  | _ => false

/-- Assign `d[k] = v` on an association-list dict: overwrite the value in
place when the key exists, append otherwise (Python dict semantics). -/
def dictSet : List (String × PyVal) → String → PyVal → List (String × PyVal)
  | [], k, v => [(k, v)]
  | p :: rest, k, v => if p.1 = k then (k, v) :: rest else p :: dictSet rest k v

/-- The dict-literal merge `{**base, **updates}`: every entry of `updates`
is assigned over `base`, later entries overriding earlier ones. -/
def dictMerge (base updates : List (String × PyVal)) : List (String × PyVal) :=
  updates.foldl (fun acc p => dictSet acc p.1 p.2) base

namespace VoiceLiveClient

/-- `VoiceLiveClient.send` (identical in `VoiceLiveModelClient`): raise if
the websocket is absent; replace a falsy `data` by `{}`; raise if the
result is not a dict; otherwise transmit the JSON of
`{"event_id": self._generate_id("evt_"), "type": event_name, **data}`.
`ws` is the optional connection and `now_ms` the millisecond timestamp used
by `_generate_id`.  The result is the transmitted envelope's entries. -/
def send (ws : Option Unit) (now_ms : Nat) (event_name : String) (data : PyVal) :
    Except String (List (String × PyVal)) :=
  if ws.isNone then Except.error "Voice Live API is not connected"
  else
    let data2 := if data.truthy then data else PyVal.pydict []
    match data2 with
    | PyVal.pydict kvs =>
      Except.ok (dictMerge
        [("event_id", PyVal.pystr ("evt_" ++ toString now_ms)),
         ("type", PyVal.pystr event_name)] kvs)
    | _ => Except.error "data must be a dictionary"

end VoiceLiveClient

theorem lookup_dictSet_self (kvs : List (String × PyVal)) (k : String) (v : PyVal) :
    (dictSet kvs k v).lookup k = some v := by
  induction kvs with
  | nil => simp [dictSet, List.lookup]
  | cons p rest ih =>
    by_cases hp : p.1 = k
    · simp [dictSet, hp, List.lookup]
    · have hk : (k == p.1) = false := beq_false_of_ne (Ne.symm hp)
      simp [dictSet, hp, List.lookup, hk, ih]

theorem lookup_dictSet_other (kvs : List (String × PyVal)) (k k2 : String) (v : PyVal)
    (hne : k2 ≠ k) : (dictSet kvs k v).lookup k2 = kvs.lookup k2 := by
  induction kvs with
  | nil => simp [dictSet, List.lookup, beq_false_of_ne hne]
  | cons p rest ih =>
    by_cases hp : p.1 = k
    · subst hp
      simp [dictSet, List.lookup, beq_false_of_ne hne]
    · simp only [dictSet, hp, if_neg, List.lookup]
      by_cases hk2p : k2 = p.1
      · simp [List.lookup, hk2p]
      · simp [List.lookup, beq_false_of_ne hk2p, ih]

theorem lookup_dictMerge_of_not_mem (base updates : List (String × PyVal)) (k : String)
    (h : ∀ p ∈ updates, p.1 ≠ k) :
    (dictMerge base updates).lookup k = base.lookup k := by
  induction updates generalizing base with
  | nil => rfl
  | cons p rest ih =>
    show (dictMerge (dictSet base p.1 p.2) rest).lookup k = base.lookup k
    rw [ih (dictSet base p.1 p.2) (fun q hq => h q (List.mem_cons_of_mem p hq))]
    exact lookup_dictSet_other base p.1 k p.2
      (fun hkp => h p (List.mem_cons_self p rest) hkp.symm)

theorem lookup_dictMerge_of_mem (base updates : List (String × PyVal)) (k : String)
    (v : PyVal) (hnodup : (updates.map Prod.fst).Nodup) (hmem : (k, v) ∈ updates) :
    (dictMerge base updates).lookup k = some v := by
  induction updates generalizing base with
  | nil => cases hmem
  | cons p rest ih =>
    simp only [List.map_cons, List.nodup_cons] at hnodup
    obtain ⟨hhead, htail⟩ := hnodup
    rcases List.mem_cons.mp hmem with heq | hmem2
    · subst heq
      show (dictMerge (dictSet base k v) rest).lookup k = some v
      rw [lookup_dictMerge_of_not_mem (dictSet base k v) rest k ?_]
      · exact lookup_dictSet_self base k v
      · intro q hq hqk
        exact hhead (List.mem_map.mpr ⟨q, hq, hqk⟩)
    · exact ih (dictSet base p.1 p.2) htail hmem2

/-- C9 counterexample: the claim requires `send` to raise whenever `data`
is not a dictionary, and the transmitted envelope's `"type"` to equal the
given event name.  Both fail: a falsy non-dict such as the empty list is
silently replaced by `{}` (`data = data or {}`) and the call succeeds, and
a `"type"` key inside `data` overrides the envelope's type because `**data`
is splatted last. -/
theorem send_not_dict_counterexample :
    (PyVal.pylist []).isDict = false ∧
    VoiceLiveClient.send (some ()) 0 "session.update" (PyVal.pylist []) =
      Except.ok [("event_id", PyVal.pystr "evt_0"), ("type", PyVal.pystr "session.update")] ∧
    VoiceLiveClient.send (some ()) 0 "session.update"
        (PyVal.pydict [("type", PyVal.pystr "other")]) =
      Except.ok [("event_id", PyVal.pystr "evt_0"), ("type", PyVal.pystr "other")] :=
  ⟨rfl, rfl, rfl⟩

/-- C9 (amended): `send` raises — and transmits nothing — when the client
is not connected (`ws is None`) or when `data` is truthy and not a
dictionary; a falsy `data` (such as `None`, `[]` or `""`) is replaced by
the empty dict.  On every successful call the transmitted envelope carries
the entries `event_id`/`type` overridden by the entries of `data`: whenever
`data` does not itself bind `"type"` the envelope's `"type"` equals the
given event name, whenever `data` does not bind `"event_id"` the envelope's
`"event_id"` starts with `"evt_"`, and every key/value pair of `data` is
present in the envelope. -/
theorem send_envelope_spec (ws : Option Unit) (now_ms : Nat) (event_name : String)
    (data : PyVal) :
    (ws = none →
      VoiceLiveClient.send ws now_ms event_name data =
        Except.error "Voice Live API is not connected") ∧
    (ws.isSome = true → data.truthy = true → data.isDict = false →
      VoiceLiveClient.send ws now_ms event_name data =
        Except.error "data must be a dictionary") ∧
    (∀ kvs, ws.isSome = true → data = PyVal.pydict kvs →
      VoiceLiveClient.send ws now_ms event_name data =
        Except.ok (dictMerge
          [("event_id", PyVal.pystr ("evt_" ++ toString now_ms)),
           ("type", PyVal.pystr event_name)] kvs) ∧
      ((∀ p ∈ kvs, p.1 ≠ "type") →
        (dictMerge
          [("event_id", PyVal.pystr ("evt_" ++ toString now_ms)),
           ("type", PyVal.pystr event_name)] kvs).lookup "type" =
          some (PyVal.pystr event_name)) ∧
      ((∀ p ∈ kvs, p.1 ≠ "event_id") →
        (dictMerge
          [("event_id", PyVal.pystr ("evt_" ++ toString now_ms)),
           ("type", PyVal.pystr event_name)] kvs).lookup "event_id" =
          some (PyVal.pystr ("evt_" ++ toString now_ms)) ∧
        ∃ suffix, "evt_" ++ toString now_ms = "evt_" ++ suffix) ∧
      ((kvs.map Prod.fst).Nodup → ∀ p ∈ kvs,
        (dictMerge
          [("event_id", PyVal.pystr ("evt_" ++ toString now_ms)),
           ("type", PyVal.pystr event_name)] kvs).lookup p.1 = some p.2)) := by
  refine ⟨?_, ?_, ?_⟩
  · intro hws
    subst hws
    rfl
  · intro hws htruthy hdict
    unfold VoiceLiveClient.send
    rw [show ws.isNone = false by cases ws <;> simp_all]
    simp only [if_false, htruthy, if_true]
    cases data <;> simp_all [PyVal.isDict]
  · intro kvs hws hdata
    subst hdata
    refine ⟨?_, ?_, ?_, ?_⟩
    · unfold VoiceLiveClient.send
      rw [show ws.isNone = false by cases ws <;> simp_all]
      simp only [if_false]
      by_cases ht : (PyVal.pydict kvs).truthy
      · simp [ht]
      · have hnil : kvs = [] := by
          cases kvs with
          | nil => rfl
          | cons a l => simp [PyVal.truthy, List.isEmpty] at ht
        subst hnil
        simp [ht]
    · intro hnok
      rw [lookup_dictMerge_of_not_mem _ _ _ hnok]
      rfl
    · intro hnok
      rw [lookup_dictMerge_of_not_mem _ _ _ hnok]
      exact ⟨rfl, toString now_ms, rfl⟩
    · intro hnodup p hp
      exact lookup_dictMerge_of_mem _ _ p.1 p.2 hnodup hp

theorem send_envelope_spec_witness :
    (some () : Option Unit).isSome = true ∧
    VoiceLiveClient.send (some ()) 7 "conversation.item.create"
        (PyVal.pydict [("item", PyVal.pystr "x")]) =
      Except.ok
        [("event_id", PyVal.pystr "evt_7"),
         ("type", PyVal.pystr "conversation.item.create"),
         ("item", PyVal.pystr "x")] := by
  refine ⟨rfl, ?_⟩
  have h := ((send_envelope_spec (some ()) 7 "conversation.item.create"
    (PyVal.pydict [("item", PyVal.pystr "x")])).2.2
    [("item", PyVal.pystr "x")] rfl rfl).1
  rw [h]
  rfl

/-- The environment variables read at the top of `tools.py`. -/
structure ToolsConfig where
  search_endpoint : String
  search_key : String
  index_name : String
  semantic_config : String
  logic_app_url_shipment_orders : String
  logic_app_url_call_log_analysis : String
  ecom_api_url : String

/-- One function declaration of `tools.tools_list`: its `"type"`, `"name"`,
the parameter properties (name and JSON type) and the required list. -/
structure ToolDecl where
  type_ : String
  name : String
  params : List (String × String)
  required : List String
deriving DecidableEq, Repr

/-- `tools.tools_list`: the five function declarations advertised to the
model in the session configuration. -/
def tools_list : List ToolDecl :=
  [ { type_ := "function", name := "perform_search_based_qna",
      params := [("query", "string")], required := ["query"] },
    { type_ := "function", name := "create_delivery_order",
      params := [("order_id", "string"), ("destination", "string")],
      required := ["order_id", "destination"] },
    { type_ := "function", name := "perform_call_log_analysis",
      params := [("call_log", "string")], required := ["call_log"] },
    { type_ := "function", name := "search_products_by_category",
      params := [("category", "string")], required := ["category"] },
    { type_ := "function", name := "order_products",
      params := [("product_id", "string"), ("quantity", "integer")],
      required := ["product_id", "quantity"] } ]

/-- The outbound request a tool function issues, with its parts kept
structured instead of rendered into the URL/payload strings of the code:
the semantic search of `perform_search_based_qna`, the Logic-App POSTs of
`create_delivery_order` (payload `{"order_id":…, "destination":…}`) and
`perform_call_log_analysis` (payload `{"call_logs": json.loads(call_log)}`,
carried here as the raw string), and the two e-commerce GETs
`…/SearchProductsByCategory?category=…` and
`…/orderproduct?id=…&quantity=…`. -/
inductive HttpCall where
  | searchQna (endpoint index_name semantic_config : String) (query : PyVal)
  | postShipmentOrder (url : String) (order_id destination : PyVal)
  | postCallLogAnalysis (url : String) (call_log : PyVal)
  | getSearchProductsByCategory (url_base : String) (category : PyVal)
  | getOrderProduct (url_base : String) (product_id quantity : PyVal)

/-- Bind a single-parameter Python call `f(**kwargs)`: exactly the one
expected keyword must be present, anything else is a `TypeError`. -/
def kwargsBind1 (n1 : String) (kwargs : List (String × PyVal)) : Except String PyVal :=
  match kwargs with
  | [(k, v)] => if k = n1 then Except.ok v
                else Except.error "TypeError: unexpected keyword argument"
  | _ => Except.error "TypeError: wrong keyword arguments"

/-- Bind a two-parameter Python call `f(**kwargs)`: exactly the two
expected keywords, in either order. -/
def kwargsBind2 (n1 n2 : String) (kwargs : List (String × PyVal)) :
    Except String (PyVal × PyVal) :=
  if kwargs.map Prod.fst = [n1, n2] ∨ kwargs.map Prod.fst = [n2, n1] then
    match kwargs.lookup n1, kwargs.lookup n2 with
    | some v1, some v2 => Except.ok (v1, v2)
    | _, _ => Except.error "TypeError: wrong keyword arguments"
  else Except.error "TypeError: wrong keyword arguments"

/-- `tools.perform_search_based_qna(query)`: a semantic search against the
configured index; the text assembled from the first two hits is a network
result and is not modelled. -/
def perform_search_based_qna (cfg : ToolsConfig) (kwargs : List (String × PyVal)) :
    Except String HttpCall := do
  let q ← kwargsBind1 "query" kwargs
  Except.ok (HttpCall.searchQna cfg.search_endpoint cfg.index_name cfg.semantic_config q)

/-- `tools.create_delivery_order(order_id, destination)`: POST to the
shipment-orders Logic App. -/
def create_delivery_order (cfg : ToolsConfig) (kwargs : List (String × PyVal)) :
    Except String HttpCall := do
  let p ← kwargsBind2 "order_id" "destination" kwargs
  Except.ok (HttpCall.postShipmentOrder cfg.logic_app_url_shipment_orders p.1 p.2)

/-- `tools.perform_call_log_analysis(call_log)`: POST the parsed call log
to the analysis Logic App.  `json.loads(call_log)` requires a string (a
non-string raises an uncaught `TypeError`); a string that fails to parse is
handled inside the function (it returns an error JSON without any HTTP
call), which is not distinguished here since no claim depends on it. -/
def perform_call_log_analysis (cfg : ToolsConfig) (kwargs : List (String × PyVal)) :
    Except String HttpCall := do
  let c ← kwargsBind1 "call_log" kwargs
  match c with
  | PyVal.pystr s =>
    Except.ok (HttpCall.postCallLogAnalysis cfg.logic_app_url_call_log_analysis
      (PyVal.pystr s))
  | _ => Except.error "TypeError: the JSON object must be str"

/-- The `search_products_by_category` lambda of `tools.available_functions`:
GET `…/SearchProductsByCategory?category={category}`. -/
def search_products_by_category (cfg : ToolsConfig) (kwargs : List (String × PyVal)) :
    Except String HttpCall := do
  let c ← kwargsBind1 "category" kwargs
  Except.ok (HttpCall.getSearchProductsByCategory cfg.ecom_api_url c)

/-- The `order_products` lambda of `tools.available_functions`:
GET `…/orderproduct?id={product_id}&quantity={quantity}`. -/
def order_products (cfg : ToolsConfig) (kwargs : List (String × PyVal)) :
    Except String HttpCall := do
  let p ← kwargsBind2 "product_id" "quantity" kwargs
  Except.ok (HttpCall.getOrderProduct cfg.ecom_api_url p.1 p.2)

/-- `tools.available_functions`: the static name-to-callable table. -/
def available_functions (cfg : ToolsConfig) :
    List (String × (List (String × PyVal) → Except String HttpCall)) :=
  [ ("perform_search_based_qna", perform_search_based_qna cfg),
    ("create_delivery_order", create_delivery_order cfg),
    ("perform_call_log_analysis", perform_call_log_analysis cfg),
    ("search_products_by_category", search_products_by_category cfg),
    ("order_products", order_products cfg) ]

/-- A piece of JSON text (the `"arguments"` string of a function call),
represented by its parse outcome: either unparseable or the value it
denotes. -/
inductive JsonText where
  | invalid (raw : String)
  | val (v : PyVal)

/-- `json.loads` applied to an optional JSON text (`None` when the key was
absent, in which case `json.loads(None)` raises a `TypeError`). -/
def json_loads : Option JsonText → Except String PyVal
  | none => Except.error "TypeError: the JSON object must be str, not NoneType"
  | some (JsonText.invalid _) => Except.error "json.JSONDecodeError"
  | some (JsonText.val v) => Except.ok v

/-- One entry of `event["response"]["output"]` as accessed with `.get` by
the function-call handling. -/
structure OutItem where
  type_ : Option String
  name : Option String
  arguments : Option JsonText
  call_id : Option String

/-- `event["response"]` as accessed with `.get` chains. -/
structure RespObj where
  status : Option String
  output : Option (List OutItem)

/-- A server envelope as decoded by `VoiceLiveModelClient.receive`. -/
structure ModelServerEvent where
  type_ : Option String
  delta : Option String
  item_id : Option String
  transcript : Option String
  response : Option RespObj

/-- The plain-event projection used when the raw envelope is re-dispatched
(`response.audio.done`). -/
def toServerEvent (e : ModelServerEvent) : ServerEvent :=
  { type_ := e.type_, delta := e.delta, item_id := e.item_id, transcript := e.transcript }

/-- `event.get("response", {}).get("status", None)`. -/
def respStatus (e : ModelServerEvent) : Option String :=
  match e.response with
  | none => none
  | some r => r.status

/-- `event.get("response", {}).get("output", [{}])[0]`: the default is a
one-element list holding an empty dict, and indexing an explicitly empty
output list raises `IndexError`. -/
def respOutput0 (e : ModelServerEvent) : Except String OutItem :=
  match e.response with
  | none => Except.ok { type_ := none, name := none, arguments := none, call_id := none }
  | some r =>
    match r.output with
    | none => Except.ok { type_ := none, name := none, arguments := none, call_id := none }
    | some [] => Except.error "IndexError: list index out of range"
    | some (o :: _) => Except.ok o

/-- What the model client's receive loop sends back while processing one
envelope: `response.create` triggers, and the `conversation.item.create`
carrying a `function_call_output` item (whose `output` is the result of the
recorded request). -/
inductive SendEnvelope where
  | responseCreate
  | functionCallOutput (call_id : Option String) (request : HttpCall)

/-- The observable outcome of processing one envelope in
`VoiceLiveModelClient.receive`: dispatches, sends, the tool invocation
(name and keyword arguments) if any, and the error printed and swallowed by
the `try/except` of the `response.done` branch if one occurred. -/
structure ModelStep where
  dispatches : List (String × Dispatched)
  sends : List SendEnvelope
  tool_calls : List (String × List (String × PyVal))
  caught : Option String

/-- A step with no effects. -/
def emptyModelStep : ModelStep :=
  { dispatches := [], sends := [], tool_calls := [], caught := none }

/-- The body of the `try` block of the `response.done` branch: on a
completed response whose first output item is a function call, decode the
arguments, look the function up by name in `available_functions`, invoke it
with the decoded dict as keyword arguments, and send the function-call
output followed by a `response.create`. -/
def responseDoneInner (cfg : ToolsConfig) (e : ModelServerEvent) :
    Except String ModelStep :=
  if respStatus e = some "completed" then
    match respOutput0 e with
    | Except.error msg => Except.error msg
    | Except.ok o =>
      if o.type_ = some "function_call" then
        match json_loads o.arguments with
        | Except.error msg => Except.error msg
        | Except.ok argsv =>
          match o.name with
          | none => Except.error "KeyError: None"
          | some nm =>
            match (available_functions cfg).lookup nm with
            | none => Except.error ("KeyError: " ++ nm)
            | some f =>
              match argsv with
              | PyVal.pydict kvs =>
                match f kvs with
                | Except.error msg => Except.error msg
                | Except.ok req =>
                  Except.ok
                    { dispatches := [],
                      sends := [SendEnvelope.functionCallOutput o.call_id req,
                                SendEnvelope.responseCreate],
                      tool_calls := [(nm, kvs)],
                      caught := none }
              | _ => Except.error "TypeError: argument after ** must be a mapping"
      else Except.ok emptyModelStep
  else Except.ok emptyModelStep

namespace VoiceLiveModelClient

/-- One iteration of `VoiceLiveModelClient.receive` on a decoded envelope.
Identical to `VoiceLiveClient` except for the `response.done` branch, whose
body is wrapped in `try/except` (errors become `caught`, the loop
continues); everywhere else a raised exception is uncaught. -/
def processEvent (cfg : ToolsConfig) (e : ModelServerEvent) : Except String ModelStep :=
  match e.type_ with
  | none => Except.error "KeyError: type"
  | some t =>
    if t = "response.audio.delta" then
      match e.delta with
      | none => Except.error "KeyError: delta"
      | some d =>
        Except.ok { emptyModelStep with dispatches :=
          [("conversation.updated", Dispatched.audioUpdate (base64_to_array_buffer d))] }
    else if t = "response.audio.done" then
      Except.ok { emptyModelStep with dispatches :=
        [("conversation.updated", Dispatched.rawUpdate (toServerEvent e))] }
    else if t = "input_audio_buffer.committed" then
      Except.ok { emptyModelStep with sends := [SendEnvelope.responseCreate] }
    else if t = "input_audio_buffer.speech_started" then
      Except.ok { emptyModelStep with dispatches :=
        [("conversation.interrupted", Dispatched.interrupted)] }
    else if t = "input_audio_buffer.speech_stopped" then
      Except.ok emptyModelStep
    else if t = "response.audio_transcript.delta" then
      match e.delta with
      | none => Except.error "KeyError: delta"
      | some d =>
        match e.item_id with
        | none => Except.error "KeyError: item_id"
        | some i =>
          Except.ok { emptyModelStep with dispatches :=
            [("conversation.text.delta", Dispatched.textDelta d i)] }
    else if t = "conversation.item.input_audio_transcription.completed" then
      match e.transcript with
      | none => Except.error "KeyError: transcript"
      | some tr =>
        Except.ok { emptyModelStep with dispatches :=
          [("conversation.input.text.done", Dispatched.inputTextDone tr)] }
    else if t = "response.done" then
      Except.ok (match responseDoneInner cfg e with
        | Except.ok step => step
        | Except.error msg => { emptyModelStep with caught := some msg })
    else
      Except.ok emptyModelStep

end VoiceLiveModelClient

/-- A raw websocket text: either not valid JSON (`json.loads` raises) or a
decoded envelope. -/
inductive WireMsg where
  | invalid (raw : String)
  | evt (e : ModelServerEvent)

namespace VoiceLiveModelClient

/-- The `async for` receive loop: process messages in order; an uncaught
exception terminates the loop, leaving the remaining messages unprocessed.
Returns the steps of the processed events and the uncaught error, if any. -/
def receiveLoop (cfg : ToolsConfig) : List WireMsg → List ModelStep × Option String
  | [] => ([], none)
  | WireMsg.invalid _ :: _ => ([], some "json.JSONDecodeError")
  | WireMsg.evt e :: rest =>
    match processEvent cfg e with
    | Except.error msg => ([], some msg)
    | Except.ok step =>
      let r := receiveLoop cfg rest
      (step :: r.1, r.2)

end VoiceLiveModelClient

/-- The session fields of `app.py` touched by
`handle_conversation_thread_updated`: the transcript pair and the
conversation-state flags for the pending user placeholder. -/
structure AppSession where
  transcript : PyId × String
  user_message_pending : Bool
  last_user_message_id : Option PyId
  message_sequence : Nat
  user_input_transcript : PyId × String
deriving DecidableEq, Repr

/-- `app.handle_conversation_thread_updated`, whose whole body is wrapped
in `try/except`.  UI calls (`cl.Message(...).update()/.send()`) can raise;
`ui a = false` means the call `a` raised.  The result is the state reached
(session writes before the raise persist), the UI calls that succeeded, and
the caught error, if any — the handler itself always returns. -/
def app_handle_conversation_thread_updated (ui : UiAction → Bool) (s : AppSession)
    (e : HandlerEvent) : AppSession × List UiAction × Option String :=
  match e.transcript with
  | none => (s, [], none)
  | some d =>
    if d = "" then (s, [], none)
    else
      let item_id := idOfEvent e.item_id
      if s.transcript.1 = item_id then
        let t := s.transcript.2 ++ d
        let s1 := { s with transcript := (item_id, t) }
        let a := UiAction.updateMessage "assistant" item_id (some t)
        if ui a then (s1, [a], none)
        else (s1, [], some "caught: Message.update raised")
      else
        if s.user_message_pending then
          let a0 := UiAction.updateMessage "user" s.user_input_transcript.1 (some "...")
          if ui a0 then
            let s1 := { s with transcript := (item_id, d) }
            let a1 := UiAction.sendMessage "assistant" item_id (some d)
            if ui a1 then (s1, [a0, a1], none)
            else (s1, [a0], some "caught: Message.send raised")
          else (s, [], some "caught: Message.update raised")
        else
          let s1 := { s with transcript := (item_id, d) }
          let a1 := UiAction.sendMessage "assistant" item_id (some d)
          if ui a1 then (s1, [a1], none)
          else (s1, [], some "caught: Message.send raised")

/-- Feed a sequence of transcript-delta events through the `app.py`
handler, counting how many events get handled to completion. -/
def app_run_thread_updates (ui : UiAction → Bool) :
    AppSession → List HandlerEvent → AppSession × Nat
  | s, [] => (s, 0)
  | s, e :: rest =>
    let r := app_handle_conversation_thread_updated ui s e
    let r2 := app_run_thread_updates ui r.1 rest
    (r2.1, r2.2 + 1)

theorem processEvent_response_done_ok (cfg : ToolsConfig) (e : ModelServerEvent)
    (ht : e.type_ = some "response.done") :
    VoiceLiveModelClient.processEvent cfg e =
      Except.ok (match responseDoneInner cfg e with
        | Except.ok step => step
        | Except.error msg => { emptyModelStep with caught := some msg }) := by
  unfold VoiceLiveModelClient.processEvent
  rw [ht]
  rfl

/-- A concrete configuration for closed evaluations (the environment
variables all empty). -/
def cfg0 : ToolsConfig :=
  { search_endpoint := "", search_key := "", index_name := "", semantic_config := "",
    logic_app_url_shipment_orders := "", logic_app_url_call_log_analysis := "",
    ecom_api_url := "" }

/-- C5 counterexample: the model client's receive loop has no exception
handler outside the `response.done` branch.  A `response.audio.delta`
envelope without a `"delta"` key raises an uncaught `KeyError`, the loop
terminates, and the following event is never processed — against the
claim that any exception during event processing is caught and logged and
processing continues. -/
theorem receive_loop_uncaught_counterexample :
    (VoiceLiveModelClient.receiveLoop cfg0
      [WireMsg.evt { type_ := some "response.audio.delta", delta := none, item_id := none,
                     transcript := none, response := none },
       WireMsg.evt { type_ := some "input_audio_buffer.speech_stopped", delta := none,
                     item_id := none, transcript := none, response := none }]).1.length = 0 ∧
    (VoiceLiveModelClient.receiveLoop cfg0
      [WireMsg.evt { type_ := some "response.audio.delta", delta := none, item_id := none,
                     transcript := none, response := none },
       WireMsg.evt { type_ := some "input_audio_buffer.speech_stopped", delta := none,
                     item_id := none, transcript := none, response := none }]).2 =
      some "KeyError: delta" :=
  ⟨rfl, rfl⟩

/-- C5 (amended): exceptions are caught, logged and skipped exactly where a
`try/except` wrapper exists — the function-call handling of
`response.done` envelopes in the model client's receive loop (processing a
`response.done` envelope never raises, and a loop fed only such envelopes
processes all of them and terminates normally), and `app.py`'s UI handler
whose body is wrapped in `try/except` (a run of the handler completes on
every event even when UI calls raise).  Elsewhere an exception propagates
and terminates the receive loop. -/
theorem catch_log_continue_scope (cfg : ToolsConfig) (e : ModelServerEvent)
    (msgs : List WireMsg) (ui : UiAction → Bool) (s : AppSession)
    (events : List HandlerEvent) :
    (e.type_ = some "response.done" →
      (VoiceLiveModelClient.processEvent cfg e).isOk = true) ∧
    ((∀ m ∈ msgs, ∃ e2, m = WireMsg.evt e2 ∧ e2.type_ = some "response.done") →
      (VoiceLiveModelClient.receiveLoop cfg msgs).2 = none ∧
      (VoiceLiveModelClient.receiveLoop cfg msgs).1.length = msgs.length) ∧
    (app_run_thread_updates ui s events).2 = events.length := by
  refine ⟨?_, ?_, ?_⟩
  · intro ht
    rw [processEvent_response_done_ok cfg e ht]
    rfl
  · intro hall
    induction msgs with
    | nil => exact ⟨rfl, rfl⟩
    | cons m rest ih =>
      obtain ⟨e2, hm, ht2⟩ := hall m (List.mem_cons_self m rest)
      subst hm
      have hrest := ih (fun m2 hm2 => hall m2 (List.mem_cons_of_mem _ hm2))
      simp only [VoiceLiveModelClient.receiveLoop,
        processEvent_response_done_ok cfg e2 ht2]
      exact ⟨hrest.1, by simp [hrest.2]⟩
  · induction events generalizing s with
    | nil => rfl
    | cons e2 rest ih =>
      simp only [app_run_thread_updates]
      rw [ih]
      rfl

theorem catch_log_continue_scope_witness :
    ({ type_ := some "response.done", delta := none, item_id := none,
       transcript := none, response := none } : ModelServerEvent).type_ =
      some "response.done" ∧
    (VoiceLiveModelClient.processEvent cfg0
      { type_ := some "response.done", delta := none, item_id := none,
        transcript := none, response := none }).isOk = true :=
  ⟨rfl,
    (catch_log_continue_scope cfg0
      { type_ := some "response.done", delta := none, item_id := none,
        transcript := none, response := none }
      [] (fun _ => true)
      { transcript := (PyId.lit "1", "-"), user_message_pending := false,
        last_user_message_id := none, message_sequence := 0,
        user_input_transcript := (PyId.lit "1", "") } []).1 rfl⟩

/-- The first output item of a completed function-call response. -/
def mkFunctionCallItem (nm : String) (args : PyVal) (cid : Option String) : OutItem :=
  { type_ := some "function_call", name := some nm,
    arguments := some (JsonText.val args), call_id := cid }

/-- The `response.done` envelope carrying a completed function call, as
decoded from the server. -/
def mkFunctionCallEvent (nm : String) (args : PyVal) (cid : Option String) :
    ModelServerEvent :=
  { type_ := some "response.done", delta := none, item_id := none, transcript := none,
    response := some { status := some "completed",
                       output := some [mkFunctionCallItem nm args cid] } }

theorem responseDoneInner_mkFunctionCall (cfg : ToolsConfig) (nm : String)
    (args : PyVal) (cid : Option String) :
    responseDoneInner cfg (mkFunctionCallEvent nm args cid) =
      match (available_functions cfg).lookup nm with
      | none => Except.error ("KeyError: " ++ nm)
      | some f =>
        match args with
        | PyVal.pydict kvs =>
          match f kvs with
          | Except.error msg => Except.error msg
          | Except.ok req =>
            Except.ok
              { dispatches := [],
                sends := [SendEnvelope.functionCallOutput cid req,
                          SendEnvelope.responseCreate],
                tool_calls := [(nm, kvs)], caught := none }
        | _ => Except.error "TypeError: argument after ** must be a mapping" := rfl

theorem responseDoneInner_mkFunctionCall_found (cfg : ToolsConfig) (nm : String)
    (kvs : List (String × PyVal)) (cid : Option String)
    (f : List (String × PyVal) → Except String HttpCall)
    (hf : (available_functions cfg).lookup nm = some f) :
    responseDoneInner cfg (mkFunctionCallEvent nm (PyVal.pydict kvs) cid) =
      match f kvs with
      | Except.error msg => Except.error msg
      | Except.ok req =>
        Except.ok
          { dispatches := [],
            sends := [SendEnvelope.functionCallOutput cid req,
                      SendEnvelope.responseCreate],
            tool_calls := [(nm, kvs)], caught := none } := by
  rw [responseDoneInner_mkFunctionCall, hf]

/-- C8: the tool dispatcher is a static table.  Every function declared in
`tools_list` has a callable under exactly the same name in
`available_functions` (the key lists coincide), and the model client's
function-call handling resolves the function to invoke solely by looking
the declared name up in `available_functions` and calls it with the
JSON-decoded arguments as keyword arguments (an unknown name is a
`KeyError` caught by the surrounding handler). -/
theorem tool_dispatch_table (cfg : ToolsConfig) :
    ((available_functions cfg).map Prod.fst = tools_list.map ToolDecl.name) ∧
    (∀ t ∈ tools_list, ((available_functions cfg).lookup t.name).isSome = true) ∧
    (∀ nm kvs cid f, (available_functions cfg).lookup nm = some f →
      VoiceLiveModelClient.processEvent cfg
          (mkFunctionCallEvent nm (PyVal.pydict kvs) cid) =
        Except.ok (match f kvs with
          | Except.ok req =>
            { dispatches := [],
              sends := [SendEnvelope.functionCallOutput cid req,
                        SendEnvelope.responseCreate],
              tool_calls := [(nm, kvs)], caught := none }
          | Except.error msg => { emptyModelStep with caught := some msg })) ∧
    (∀ nm kvs cid, (available_functions cfg).lookup nm = none →
      VoiceLiveModelClient.processEvent cfg
          (mkFunctionCallEvent nm (PyVal.pydict kvs) cid) =
        Except.ok { emptyModelStep with caught := some ("KeyError: " ++ nm) }) := by
  refine ⟨rfl, ?_, ?_, ?_⟩
  · intro t ht
    fin_cases ht <;> rfl
  · intro nm kvs cid f hf
    rw [processEvent_response_done_ok cfg _ rfl,
      responseDoneInner_mkFunctionCall_found cfg nm kvs cid f hf]
    cases hres : f kvs with
    | ok req => rfl
    | error msg => rfl
  · intro nm kvs cid hf
    rw [processEvent_response_done_ok cfg _ rfl, responseDoneInner_mkFunctionCall, hf]

theorem tool_dispatch_table_witness :
    (available_functions cfg0).lookup "search_products_by_category" =
      some (search_products_by_category cfg0) ∧
    VoiceLiveModelClient.processEvent cfg0
        (mkFunctionCallEvent "search_products_by_category"
          (PyVal.pydict [("category", PyVal.pystr "Apparel")]) (some "call_1")) =
      Except.ok
        { dispatches := [],
          sends := [SendEnvelope.functionCallOutput (some "call_1")
              (HttpCall.getSearchProductsByCategory "" (PyVal.pystr "Apparel")),
            SendEnvelope.responseCreate],
          tool_calls := [("search_products_by_category",
            [("category", PyVal.pystr "Apparel")])],
          caught := none } := by
  refine ⟨rfl, ?_⟩
  have h := (tool_dispatch_table cfg0).2.2.1 "search_products_by_category"
    [("category", PyVal.pystr "Apparel")] (some "call_1")
    (search_products_by_category cfg0) rfl
  rw [h]
  rfl

/-- A WebSocket frame as iterated by the aiohttp message loops:
`aiohttp.WSMsgType.TEXT`, `.BINARY`, or `.ERROR`. -/
inductive WsFrame where
  | text (payload : String)
  | binary (payload : List Nat)
  | errorFrame
deriving DecidableEq, Repr

/-- The frame payload when the frame is text. -/
def textPayload : WsFrame → Option String
  | WsFrame.text s => some s
  | _ => none

/-- The forwarding loops of `handle_client_connection`
(`forward_client_to_azure` / `forward_azure_to_client`): relay the payload
of each TEXT frame unchanged, stop at an ERROR frame, and silently skip
any other frame type. -/
def forward_frames : List WsFrame → List String
  | [] => []
  | WsFrame.text s :: rest => s :: forward_frames rest
  | WsFrame.errorFrame :: _ => []
  | WsFrame.binary _ :: rest => forward_frames rest

/-- `json.dumps({"type": "connection.established", "message": …})` — the
notice the proxy sends to the client after connecting to Azure, before any
forwarding. -/
def connection_established_msg : String :=
  "\x7b\"type\": \"connection.established\", \"message\": \"Connected to Azure Voice Live API with proper authentication\"\x7d"

/-- `endpoint.rstrip('/').replace("https://", "wss://")`. -/
def wss_endpoint (endpoint : String) : String :=
  (endpoint.dropRightWhile (fun c => c = '/')).replace "https://" "wss://"

/-- The outbound Azure URL built by `handle_client_connection`, with the
bearer token in the `agent-access-token` query parameter. -/
def azure_ws_url (endpoint api_version project_name agent_id token : String) : String :=
  wss_endpoint endpoint ++ "/voice-live/realtime?api-version=" ++ api_version ++
    "&agent-project-name=" ++ project_name ++ "&agent-id=" ++ agent_id ++
    "&agent-access-token=" ++ token

/-- The headers of the outbound Azure connection, with the bearer token in
`Authorization`. -/
def proxy_headers (token request_id : String) : List (String × String) :=
  [("Authorization", "Bearer " ++ token),
   ("x-ms-client-request-id", request_id),
   ("User-Agent", "VoiceLiveProxy/1.0")]

/-- The frames sent in each direction over one proxied connection. -/
structure ProxyRun where
  to_azure : List String
  to_client : List String
deriving DecidableEq, Repr

/-- The steady-state behaviour of
`VoiceLiveProxyAioHttp.handle_client_connection` once the Azure connection
is up: it first sends the connection-established notice to the client and
then runs the two forwarding loops over the frames received from each
side. -/
def handle_client_connection (client_frames azure_frames : List WsFrame) : ProxyRun :=
  { to_azure := forward_frames client_frames,
    to_client := connection_established_msg :: forward_frames azure_frames }

theorem forward_frames_eq_filter (frames : List WsFrame) :
    forward_frames frames =
      (frames.takeWhile (fun f => f != WsFrame.errorFrame)).filterMap textPayload := by
  induction frames with
  | nil => rfl
  | cons f rest ih =>
    cases f with
    | text s =>
      have hb : (WsFrame.text s != WsFrame.errorFrame) = true := rfl
      simp [forward_frames, List.takeWhile, textPayload, ih, hb]
    | binary b =>
      have hb : (WsFrame.binary b != WsFrame.errorFrame) = true := rfl
      simp [forward_frames, List.takeWhile, textPayload, ih, hb]
    | errorFrame =>
      simp [forward_frames, List.takeWhile]

/-- C3 counterexample: the proxy is not a pure pass-through.  With no
frames arriving from Azure the client still receives one frame — the
proxy's own `connection.established` notice — and a binary frame received
from the client is not forwarded to Azure. -/
theorem proxy_introduces_frames_counterexample :
    (handle_client_connection [] []).to_client = [connection_established_msg] ∧
    (handle_client_connection [WsFrame.binary [0]] []).to_azure = [] :=
  ⟨rfl, rfl⟩

/-- C3 (amended): after accepting the browser connection, obtaining a
bearer token and opening the outbound WebSocket with the token injected
into the `Authorization` header and the URL, the proxy forwards every TEXT
frame unchanged and in order in both directions up to the first ERROR
frame, forwards no other frame types, and introduces exactly one frame of
its own: the `connection.established` JSON notice sent to the client
before forwarding begins (error notices on failure paths aside). -/
theorem proxy_forwards_text_frames (client_frames azure_frames : List WsFrame)
    (endpoint api_version project_name agent_id token request_id : String) :
    (handle_client_connection client_frames azure_frames).to_azure =
      (client_frames.takeWhile (fun f => f != WsFrame.errorFrame)).filterMap textPayload ∧
    (handle_client_connection client_frames azure_frames).to_client =
      connection_established_msg ::
        (azure_frames.takeWhile (fun f => f != WsFrame.errorFrame)).filterMap textPayload ∧
    (proxy_headers token request_id).lookup "Authorization" =
      some ("Bearer " ++ token) ∧
    (∃ front, azure_ws_url endpoint api_version project_name agent_id token =
      front ++ token) :=
  ⟨forward_frames_eq_filter client_frames,
    congrArg (connection_established_msg :: ·) (forward_frames_eq_filter azure_frames),
    rfl,
    ⟨wss_endpoint endpoint ++ "/voice-live/realtime?api-version=" ++ api_version ++
      "&agent-project-name=" ++ project_name ++ "&agent-id=" ++ agent_id ++
      "&agent-access-token=", rfl⟩⟩

/-- `avatar_server.PORT`. -/
def avatar_PORT : Nat := 8080

/-- `avatar_server.HOST`. -/
def avatar_HOST : String := "localhost"

/-- The address `(HOST, PORT)` the TCP server of `avatar_server.main` binds. -/
def avatar_server_address : String × Nat := (avatar_HOST, avatar_PORT)

/-- `AvatarHTTPRequestHandler.do_GET`: rewrite the root (or empty) path to
the fixed HTML bundle; every other path is served as-is from the working
directory by the superclass handler. -/
def avatar_do_GET_path (path : String) : String :=
  if path = "/" ∨ path = "" then "/avatar_voice_live_app.html" else path

/-- The CORS headers `AvatarHTTPRequestHandler.end_headers` adds, in
order. -/
def avatar_cors_headers : List (String × String) :=
  [("Access-Control-Allow-Origin", "*"),
   ("Access-Control-Allow-Methods", "GET, POST, OPTIONS"),
   ("Access-Control-Allow-Headers", "*")]

/-- `AvatarHTTPRequestHandler.end_headers`: append the CORS headers to the
headers already emitted for the response, then terminate the header block
(superclass call). -/
def avatar_end_headers (emitted : List (String × String)) : List (String × String) :=
  emitted ++ avatar_cors_headers

/-- C7: the static file server binds localhost:8080; a GET for `/` or the
empty path is rewritten to serve `avatar_voice_live_app.html`, every other
GET path is served unmodified from the working directory, and the three
CORS headers are part of every response's header block. -/
theorem avatar_server_spec :
    avatar_server_address = ("localhost", 8080) ∧
    avatar_do_GET_path "/" = "/avatar_voice_live_app.html" ∧
    avatar_do_GET_path "" = "/avatar_voice_live_app.html" ∧
    (∀ p : String, p ≠ "/" → p ≠ "" → avatar_do_GET_path p = p) ∧
    (∀ emitted, ("Access-Control-Allow-Origin", "*") ∈ avatar_end_headers emitted ∧
      ("Access-Control-Allow-Methods", "GET, POST, OPTIONS") ∈ avatar_end_headers emitted ∧
      ("Access-Control-Allow-Headers", "*") ∈ avatar_end_headers emitted) := by
  refine ⟨rfl, rfl, rfl, ?_, ?_⟩
  · intro p h1 h2
    simp [avatar_do_GET_path, h1, h2]
  · intro emitted
    refine ⟨?_, ?_, ?_⟩ <;> simp [avatar_end_headers, avatar_cors_headers]

theorem avatar_server_spec_witness :
    ("/static/app.js" ≠ "/" ∧ "/static/app.js" ≠ "") ∧
    avatar_do_GET_path "/static/app.js" = "/static/app.js" :=
  ⟨⟨by decide, by decide⟩,
    (avatar_server_spec).2.2.2.1 "/static/app.js" (by decide) (by decide)⟩

/-- One check of the `while not stop_event.is_set()` capture loop of
`streamlit_voice_app.listen_and_send_audio`: the shared stop flag as read
at the loop head, whether a 20 ms chunk is available to read, and its
base64 payload. -/
structure CaptureStep where
  stop : Bool
  read_available : Bool
  chunk_b64 : String
deriving DecidableEq, Repr

/-- The envelope text sent for one captured chunk:
`json.dumps({"type": "input_audio_buffer.append", "audio": audio, "event_id": ""})`. -/
def append_envelope (audio_b64 : String) : String :=
  "\x7b\"type\": \"input_audio_buffer.append\", \"audio\": \"" ++ audio_b64 ++
    "\", \"event_id\": \"\"\x7d"

/-- `streamlit_voice_app.listen_and_send_audio` over a trace of loop
checks: exit as soon as the stop flag reads set; otherwise send the
chunk's append envelope when one is available and loop.  Returns the sent
envelopes in order and the number of loop iterations run. -/
def listen_and_send_audio : List CaptureStep → List String × Nat
  | [] => ([], 0)
  | st :: rest =>
    if st.stop then ([], 0)
    else
      let r := listen_and_send_audio rest
      ((if st.read_available then [append_envelope st.chunk_b64] else []) ++ r.1, r.2 + 1)

/-- One check of the playback loop of
`streamlit_voice_app.receive_audio_and_playback`: the shared stop flag as
read at the loop head and the raw event text `connection.recv()` returned
(`none` when the 0.1 s poll timed out). -/
structure PlaybackStep where
  stop : Bool
  recv : Option String
deriving DecidableEq, Repr

/-- The `receive_audio_and_playback` loop skeleton: exit as soon as the
stop flag reads set; otherwise process the received event if one arrived
(the per-event bodies drive the UI state and the audio player, modelled
separately by `AudioPlayerAsync`).  Returns the raw events processed in
order and the number of loop iterations run. -/
def receive_audio_and_playback : List PlaybackStep → List String × Nat
  | [] => ([], 0)
  | st :: rest =>
    if st.stop then ([], 0)
    else
      let r := receive_audio_and_playback rest
      ((match st.recv with | some m => [m] | none => []) ++ r.1, r.2 + 1)

theorem listen_stop_from_check (capture : List CaptureStep) (k : Nat)
    (hc : ((capture.drop k).all (fun st => st.stop)) = true) :
    listen_and_send_audio capture = listen_and_send_audio (capture.take k) ∧
    (listen_and_send_audio capture).2 ≤ k := by
  induction capture generalizing k with
  | nil => simp [listen_and_send_audio]
  | cons st rest ih =>
    cases k with
    | zero =>
      have hstop : st.stop = true :=
        List.all_eq_true.mp hc st (List.mem_cons_self st rest)
      simp [listen_and_send_audio, hstop]
    | succ k2 =>
      by_cases hstop : st.stop
      · simp [listen_and_send_audio, hstop]
      · have hc2 : ((rest.drop k2).all (fun st => st.stop)) = true := hc
        obtain ⟨h1, h2⟩ := ih k2 hc2
        have hred : ∀ tail, listen_and_send_audio (st :: tail) =
            ((if st.read_available then [append_envelope st.chunk_b64] else []) ++
              (listen_and_send_audio tail).1, (listen_and_send_audio tail).2 + 1) := by
          intro tail
          simp only [listen_and_send_audio]
          rw [if_neg hstop]
        refine ⟨?_, ?_⟩
        · rw [List.take_succ_cons, hred rest, hred (rest.take k2), h1]
        · rw [hred rest]
          show (listen_and_send_audio rest).2 + 1 ≤ k2 + 1
          omega

theorem playback_stop_from_check (playback : List PlaybackStep) (k : Nat)
    (hp : ((playback.drop k).all (fun st => st.stop)) = true) :
    receive_audio_and_playback playback = receive_audio_and_playback (playback.take k) ∧
    (receive_audio_and_playback playback).2 ≤ k := by
  induction playback generalizing k with
  | nil => simp [receive_audio_and_playback]
  | cons st rest ih =>
    cases k with
    | zero =>
      have hstop : st.stop = true :=
        List.all_eq_true.mp hp st (List.mem_cons_self st rest)
      simp [receive_audio_and_playback, hstop]
    | succ k2 =>
      by_cases hstop : st.stop
      · simp [receive_audio_and_playback, hstop]
      · have hp2 : ((rest.drop k2).all (fun st => st.stop)) = true := hp
        obtain ⟨h1, h2⟩ := ih k2 hp2
        have hred : ∀ tail, receive_audio_and_playback (st :: tail) =
            ((match st.recv with | some m => [m] | none => []) ++
              (receive_audio_and_playback tail).1,
              (receive_audio_and_playback tail).2 + 1) := by
          intro tail
          simp only [receive_audio_and_playback]
          rw [if_neg hstop]
        refine ⟨?_, ?_⟩
        · rw [List.take_succ_cons, hred rest, hred (rest.take k2), h1]
        · rw [hred rest]
          show (receive_audio_and_playback rest).2 + 1 ≤ k2 + 1
          omega

/-- C6: once the process-wide stop flag reads set from the `k`-th loop
check onwards (it is never cleared while the loops run), the capture loop
sends no `input_audio_buffer.append` envelope beyond those of the first
`k` checks and runs at most `k` iterations, and the playback loop
processes no received event beyond those of the first `k` checks and runs
at most `k` iterations: both loops terminate. -/
theorem stop_event_halts_loops (capture : List CaptureStep) (playback : List PlaybackStep)
    (k : Nat)
    (hc : ((capture.drop k).all (fun st => st.stop)) = true)
    (hp : ((playback.drop k).all (fun st => st.stop)) = true) :
    listen_and_send_audio capture = listen_and_send_audio (capture.take k) ∧
    (listen_and_send_audio capture).2 ≤ k ∧
    receive_audio_and_playback playback = receive_audio_and_playback (playback.take k) ∧
    (receive_audio_and_playback playback).2 ≤ k :=
  ⟨(listen_stop_from_check capture k hc).1, (listen_stop_from_check capture k hc).2,
    (playback_stop_from_check playback k hp).1, (playback_stop_from_check playback k hp).2⟩

theorem stop_event_halts_loops_witness :
    (([⟨false, true, "QUJD"⟩, ⟨true, false, ""⟩, ⟨true, true, "RA=="⟩] :
        List CaptureStep).drop 1).all (fun st => st.stop) = true ∧
    (([⟨false, some "evt"⟩, ⟨true, some "late"⟩] : List PlaybackStep).drop 1).all
      (fun st => st.stop) = true ∧
    (listen_and_send_audio
      [⟨false, true, "QUJD"⟩, ⟨true, false, ""⟩, ⟨true, true, "RA=="⟩]).2 ≤ 1 ∧
    (receive_audio_and_playback [⟨false, some "evt"⟩, ⟨true, some "late"⟩]).2 ≤ 1 :=
  ⟨by decide, by decide,
    (stop_event_halts_loops
      [⟨false, true, "QUJD"⟩, ⟨true, false, ""⟩, ⟨true, true, "RA=="⟩]
      [⟨false, some "evt"⟩, ⟨true, some "late"⟩] 1 (by decide) (by decide)).2.1,
    (stop_event_halts_loops
      [⟨false, true, "QUJD"⟩, ⟨true, false, ""⟩, ⟨true, true, "RA=="⟩]
      [⟨false, some "evt"⟩, ⟨true, some "late"⟩] 1 (by decide) (by decide)).2.2.2⟩

namespace AudioPlayerAsync

/-- The chunk-consuming `while` loop of `AudioPlayerAsync.callback`: pop
queued chunks in order until `frames` samples are gathered or the queue
empties, re-prepending the unused remainder of a partially consumed chunk
to the front of the queue. -/
def callback_loop (frames : Nat) : List Int → List (List Int) → List Int × List (List Int)
  | data, [] => (data, [])
  | data, item :: rest =>
    if data.length < frames then
      let needed := frames - data.length
      let data2 := data ++ item.take needed
      if needed < item.length then (data2, item.drop needed :: rest)
      else callback_loop frames data2 rest
    else (data, item :: rest)

/-- `AudioPlayerAsync.callback`: gather up to `frames` queued samples, pad
the tail with zeros up to exactly `frames`, and leave the unconsumed
samples queued.  Returns the samples written to `outdata` and the queue
left behind. -/
def callback (frames : Nat) (queue : List (List Int)) : List Int × List (List Int) :=
  let r := callback_loop frames [] queue
  (r.1 ++ List.replicate (frames - r.1.length) 0, r.2)

/-- `AudioPlayerAsync.add_data`: enqueue the decoded chunk only while
playing or when the queue is empty (stale audio after an interruption is
discarded). -/
def add_data (playing : Bool) (queue : List (List Int)) (chunk : List Int) :
    List (List Int) :=
  if playing || queue.isEmpty then queue ++ [chunk] else queue

theorem callback_loop_spec (frames : Nat) (q : List (List Int)) (data : List Int) :
    (callback_loop frames data q).1 =
      data ++ q.flatten.take (frames - data.length) ∧
    (callback_loop frames data q).2.flatten =
      q.flatten.drop (frames - data.length) := by
  induction q generalizing data with
  | nil => simp [callback_loop]
  | cons item rest ih =>
    by_cases hlt : data.length < frames
    · by_cases hitem : frames - data.length < item.length
      · simp only [callback_loop, hlt, if_true, hitem]
        constructor
        · rw [List.flatten_cons, List.take_append_eq_append_take,
            show frames - data.length - item.length = 0 by omega, List.take_zero,
            List.append_nil]
        · rw [List.flatten_cons, List.flatten_cons, List.drop_append_eq_append_drop,
            show frames - data.length - item.length = 0 by omega, List.drop_zero]
      · have hle : item.length ≤ frames - data.length := by omega
        simp only [callback_loop, hlt, if_true, hitem, if_false]
        rw [List.take_of_length_le hle]
        obtain ⟨h1, h2⟩ := ih (data ++ item)
        have hlen : frames - (data ++ item).length =
            frames - data.length - item.length := by
          rw [List.length_append]
          omega
        constructor
        · rw [h1, hlen, List.flatten_cons, List.take_append_eq_append_take,
            List.take_of_length_le hle, List.append_assoc]
        · rw [h2, hlen, List.flatten_cons, List.drop_append_eq_append_drop,
            List.drop_eq_nil_of_le hle, List.nil_append]
    · have hz : frames - data.length = 0 := by omega
      simp [callback_loop, hlt, hz]

/-- C10: every `callback` invocation for `frames` samples fills the output
with exactly `frames` samples — the queued samples in order, zero-padded
when the queue holds fewer — consuming chunks in order, re-prepending the
unused remainder, and leaving exactly the not-yet-emitted samples queued:
the emitted non-padding samples are the first `frames` samples of the
queued chunks' concatenation and the new queue holds the rest, so no
queued sample is dropped or duplicated; and `add_data` while playing
appends the chunk to the end of the queued concatenation. -/
theorem callback_fills_frames_exactly (frames : Nat) (queue : List (List Int)) :
    (callback frames queue).1.length = frames ∧
    (callback frames queue).1 =
      queue.flatten.take frames ++
        List.replicate (frames - (queue.flatten.take frames).length) 0 ∧
    (callback frames queue).2.flatten = queue.flatten.drop frames ∧
    (∀ q chunk, (add_data true q chunk).flatten = q.flatten ++ chunk) := by
  obtain ⟨h1, h2⟩ := callback_loop_spec frames queue []
  simp only [List.nil_append, List.length_nil, Nat.sub_zero] at h1 h2
  have hlen : (queue.flatten.take frames).length ≤ frames := by
    rw [List.length_take]
    omega
  refine ⟨?_, ?_, ?_, ?_⟩
  · show ((callback_loop frames [] queue).1 ++
      List.replicate (frames - (callback_loop frames [] queue).1.length) 0).length = frames
    rw [h1, List.length_append, List.length_replicate]
    omega
  · show (callback_loop frames [] queue).1 ++
      List.replicate (frames - (callback_loop frames [] queue).1.length) 0 =
      queue.flatten.take frames ++
        List.replicate (frames - (queue.flatten.take frames).length) 0
    rw [h1]
  · exact h2
  · intro q chunk
    simp [add_data, List.flatten_append]

end AudioPlayerAsync
